import Mathlib

/-!
Shallow embedding of the healflow-cloud validation/healing core
(`src/app/engine/validator.py` and `src/app/engine/healer.py`).

Modelling conventions:
* pandas cell values are modelled by `Cell` (a missing value, a string, a
  rational number standing for a Python float, or a date given as a day
  number); Python floats are modelled by `ℚ`.
* A `DataFrame` is a row count together with an association list from
  column names to cell lists.
* The YAML-derived Python configuration dict is modelled by the `Config`
  structure; a `none` field models an absent dict key.
* Python exceptions raised by the checks are modelled by `Option Failure`:
  `some f` means the check raises failure `f`, `none` means it returns
  normally.
* `date.today()` is passed in explicitly as the `today : Int` day number.
* The causal-log append (`log_causal_event`) is an external side effect
  with no influence on control flow or data; it is not modelled.
* Functions that receive the caller's mutable config dict and may mutate
  it are embedded so that their result is the post-call state of that
  dict; where the distinction matters the embedding returns a pair
  `(python return value, state of the caller's dict after the call)`.
-/

/-- A pandas cell value: missing (`NaN`/`None`), a string, a numeric value,
or a date (as a day number). -/
inductive Cell
  | null
  | str (s : String)
  | num (q : ℚ)
  | date (d : Int)
deriving DecidableEq, Repr

/-- An in-memory tabular dataset: `len(df)` and the named columns with
their cell lists. -/
structure DataFrame where
  nrows : Nat
  cols : List (String × List Cell)
deriving DecidableEq, Repr

/-- Section `schema` of the configuration dict. -/
structure SchemaSection where
  required_columns : Option (List String)
  column_types : Option (List (String × String))
deriving DecidableEq, Repr, Inhabited

/-- Section `data_quality` of the configuration dict. -/
structure DataQualitySection where
  max_null_fraction : Option ℚ
  min_row_count : Option Int
  unique_keys : Option (List String)
deriving DecidableEq, Repr, Inhabited

/-- Section `freshness` of the configuration dict. -/
structure FreshnessSection where
  date_column : Option String
  max_days_delay : Option Int
deriving DecidableEq, Repr, Inhabited

/-- The configuration dict passed to `run_validation` and the healer;
a `none` field models an absent key. -/
structure Config where
  pipeline_name : Option String
  schema : Option SchemaSection
  data_quality : Option DataQualitySection
  allowed_values : Option (List (String × List String))
  freshness : Option FreshnessSection
deriving DecidableEq, Repr, Inhabited

/-- Dataclass `DQConfig` of `validator.py`. -/
structure DQConfig where
  max_null_fraction : ℚ
  min_row_count : Int
  required_columns : List String
  unique_keys : List String
  column_types : List (String × String)
  allowed_values : List (String × List String)
  freshness_date_column : Option String
  freshness_max_days_delay : Option Int
deriving DecidableEq, Repr

/-- Function `build_dq_config` of `validator.py`: read each key with its default. -/
def build_dq_config (config : Config) : DQConfig :=
  let dq := config.data_quality.getD default
  let schema := config.schema.getD default
  let freshness_cfg := config.freshness.getD default
  { max_null_fraction := dq.max_null_fraction.getD 1
    min_row_count := dq.min_row_count.getD 0
    required_columns := schema.required_columns.getD []
    unique_keys := dq.unique_keys.getD []
    column_types := schema.column_types.getD []
    allowed_values := config.allowed_values.getD []
    freshness_date_column := freshness_cfg.date_column
    freshness_max_days_delay := freshness_cfg.max_days_delay }

/-- Exception `DataQualityError` of `validator.py` (the human-readable message is
not modelled). -/
structure DataQualityError where
  kind : Option String
  column : Option String
  observed : Option ℚ
  threshold : Option ℚ
deriving DecidableEq, Repr

/-- A typed validation failure: `SchemaDriftError` or `DataQualityError`. -/
inductive Failure
  | schemaDrift (missing_columns : List String)
  | dq (err : DataQualityError)
deriving DecidableEq, Repr

/-- Lookup `df[col]` (and the membership test `col in df.columns`). -/
def DataFrame.col? (df : DataFrame) (name : String) : Option (List Cell) :=
  df.cols.lookup name

/-- Check `_check_row_count`: fail `row_count` when `len(df) < cfg.min_row_count`. -/
def check_row_count (df : DataFrame) (cfg : DQConfig) : Option Failure :=
  if (df.nrows : Int) < cfg.min_row_count then
    some (.dq ⟨some "row_count", none, some (df.nrows : ℚ), some (cfg.min_row_count : ℚ)⟩)
  else none

/-- Result of `Series.isna` on one cell. -/
def Cell.isNull : Cell → Bool
  | .null => true
  | _ => false

/-- Check `_check_null_fraction`: the checked column is the hardcoded literal
`"sales_amount"`; absent column means the check is skipped. -/
def check_null_fraction (df : DataFrame) (cfg : DQConfig) : Option Failure :=
  match df.col? "sales_amount" with
  | none => none
  | some cells =>
    -- pandas: the mean of an empty series is NaN and `NaN > threshold`
    -- is False, so an empty column never fails
    if cells.isEmpty then none
    else
      let null_frac : ℚ := (cells.countP Cell.isNull : ℚ) / (cells.length : ℚ)
      if null_frac > cfg.max_null_fraction then
        some (.dq ⟨some "null_fraction", some "sales_amount", some null_frac,
          some cfg.max_null_fraction⟩)
      else none

/-- Check `_check_schema`: collect the required columns absent from the dataset,
in required-columns order, and fail `SchemaDriftError` when any are missing. -/
def check_schema (df : DataFrame) (cfg : DQConfig) : Option Failure :=
  let missing := cfg.required_columns.filter fun c => (df.col? c).isNone
  if missing.isEmpty then none else some (.schemaDrift missing)

/-- Count `df[col].duplicated().sum()`: cells beyond the first occurrence of each
distinct value. -/
def dupCount (cells : List Cell) : Nat :=
  cells.length - cells.toFinset.card

/-- Loop body of `_check_uniqueness` over `cfg.unique_keys`. -/
def checkUniqueKeys (df : DataFrame) : List String → Option Failure
  | [] => none
  | col :: rest =>
    match df.col? col with
    | none => checkUniqueKeys df rest
    | some cells =>
      if 0 < dupCount cells then
        some (.dq ⟨some "uniqueness", some col, none, none⟩)
      else checkUniqueKeys df rest

/-- Check `_check_uniqueness`. -/
def check_uniqueness (df : DataFrame) (cfg : DQConfig) : Option Failure :=
  checkUniqueKeys df cfg.unique_keys

/-- Whether `pd.to_numeric(cell, errors="raise")` succeeds: NaN and numbers
pass, strings pass only when they parse as a number (modelled by integer
literals), dates raise. -/
def Cell.numericOk : Cell → Bool
  | .null => true
  | .num _ => true
  | .str s => s.toInt?.isSome
  | .date _ => false

/-- Body of the `try` in `_check_column_types`: `"float"` and `"int"` run
`pd.to_numeric` over the column (`downcast="integer"` never raises on its
own), `"str"` runs `astype(str)` which always succeeds, and any other
expected type runs no conversion. -/
def typeCheckOk (expected : String) (cells : List Cell) : Bool :=
  if expected = "float" ∨ expected = "int" then cells.all Cell.numericOk
  else true

/-- Loop body of `_check_column_types` over `cfg.column_types`. -/
def checkColumnTypes (df : DataFrame) : List (String × String) → Option Failure
  | [] => none
  | (col, expected) :: rest =>
    match df.col? col with
    | none => checkColumnTypes df rest
    | some cells =>
      if typeCheckOk expected cells then checkColumnTypes df rest
      else some (.dq ⟨some "type_mismatch", some col, none, none⟩)

/-- Check `_check_column_types`. -/
def check_column_types (df : DataFrame) (cfg : DQConfig) : Option Failure :=
  checkColumnTypes df cfg.column_types

/-- Whether a non-missing cell is one of the allowed (string) values. -/
def cellAllowed (allowed : List String) (c : Cell) : Bool :=
  allowed.any fun a => c = .str a

/-- Loop body of `_check_allowed_values` over `cfg.allowed_values`: fail on
the first configured column present in the dataset holding a non-missing
value outside its allow-list. -/
def checkAllowedValues (df : DataFrame) : List (String × List String) → Option Failure
  | [] => none
  | (col, allowed) :: rest =>
    match df.col? col with
    | none => checkAllowedValues df rest
    | some cells =>
      if cells.any (fun c => !c.isNull && !cellAllowed allowed c) then
        some (.dq ⟨some "allowed_values", some col, none, none⟩)
      else checkAllowedValues df rest

/-- Check `_check_allowed_values`. -/
def check_allowed_values (df : DataFrame) (cfg : DQConfig) : Option Failure :=
  checkAllowedValues df cfg.allowed_values

/-- Parse `pd.to_datetime` on one cell: only date cells parse; a cell pandas
cannot turn into a usable datetime makes the surrounding `try` body raise. -/
def Cell.parseDate : Cell → Option Int
  | .date d => some d
  | _ => none

/-- The `try` body of `_check_freshness` (lines 190-218 of `validator.py`):
the failure it would raise, were it not for the enclosing
`except Exception: pass`.  Guards: the check is skipped when the freshness
rule is absent or falsy (`not col`, `not max_days_delay`), or the date
column is absent from the dataset; a column that fails to parse, or an
empty column (whose max is `NaT`), raises a non-`DataQualityError`
exception inside the `try` and so produces no failure either. -/
def checkFreshnessBody (df : DataFrame) (cfg : DQConfig) (today : Int) : Option Failure :=
  match cfg.freshness_date_column, cfg.freshness_max_days_delay with
  | some col, some max_delay =>
    if col = "" ∨ max_delay = 0 then none
    else
      match df.col? col with
      | none => none
      | some cells =>
        match cells.mapM Cell.parseDate with
        | none => none
        | some dates =>
          match dates.max? with
          | none => none
          | some max_date =>
            let delta_days := today - max_date
            if delta_days > max_delay then
              some (.dq ⟨some "freshness", some col, some (delta_days : ℚ),
                some (max_delay : ℚ)⟩)
            else none
  | _, _ => none

/-- Check `_check_freshness`: the whole body sits in a
`try: ... except Exception: pass`, and the `raise DataQualityError(...)`
is inside the `try`, so every exception the body raises — the freshness
`DataQualityError` included — is caught and discarded: the check never
fails the caller. -/
def check_freshness (df : DataFrame) (cfg : DQConfig) (today : Int) : Option Failure :=
  let _ := checkFreshnessBody df cfg today
  none

/-- Entry point `run_validation`: build the config and run the checks in source order,
each `raise` propagating to the caller (modelled by `Option.orElse`). -/
def run_validation (df : DataFrame) (config : Config) (today : Int) : Option Failure :=
  let dq_cfg := build_dq_config config
  (check_row_count df dq_cfg).orElse fun _ =>
  (check_null_fraction df dq_cfg).orElse fun _ =>
  (check_schema df dq_cfg).orElse fun _ =>
  (check_uniqueness df dq_cfg).orElse fun _ =>
  (check_column_types df dq_cfg).orElse fun _ =>
  (check_allowed_values df dq_cfg).orElse fun _ =>
  check_freshness df dq_cfg today

/-- A `suggested_actions` entry of a diagnosis dict, tagged by its
`"type"` key (the human-readable `"description"` is not modelled). -/
inductive CandidateAction
  | schema_update (from_col to_col : String)
  | no_safe_fix
  | dq_update_max_null (column : String) (new_threshold : ℚ)
deriving DecidableEq, Repr

/-- The `"type"` key of an action dict. -/
def CandidateAction.typeName : CandidateAction → String
  | .schema_update _ _ => "schema_update"
  | .no_safe_fix => "no_safe_fix"
  | .dq_update_max_null _ _ => "dq_update_max_null"

/-- A diagnosis dict as built by `healer.py`; keys absent from one of the
two diagnosis shapes are modelled by `none`. -/
structure Diagnosis where
  pipeline_name : String
  root_cause : String
  missing_columns : Option (List String)
  column : Option String
  observed : Option ℚ
  threshold : Option ℚ
  suggested_actions : List CandidateAction
deriving DecidableEq, Repr

/-- Python `x or d` for an optional string: `d` when `x` is `None` or
the empty string. -/
def pyOrStr (x : Option String) (d : String) : String :=
  match x with
  | some s => if s = "" then d else s
  | none => d

/-- Python truthiness of an optional string: false for `None` and for the
empty string. -/
def pyTruthyStr : Option String → Bool
  | some s => s != ""
  | none => false

/-- Function `diagnose_schema_drift`: the result pairs the returned diagnosis with
the state of the caller's config dict after the call (the function only
reads `config`, so that state is the input). -/
def diagnose_schema_drift (missing_columns : List String) (config : Config) :
    Diagnosis × Config :=
  let diagnosis : Diagnosis :=
    { pipeline_name := config.pipeline_name.getD "unknown"
      root_cause := "schema_drift"
      missing_columns := some missing_columns
      column := none
      observed := none
      threshold := none
      suggested_actions :=
        if "date_of_sale" ∈ missing_columns then
          [.schema_update "date_of_sale" "txn_date"]
        else
          [.no_safe_fix] }
  (diagnosis, config)

/-- Function `apply_schema_healing`: the result pairs the returned config with the
state of the caller's config dict after the call; the source mutates
`config` in place (`config.setdefault("schema", {})["required_columns"] =
new_cols`) and returns that same object, so on the rename path both
components are the healed value. -/
def apply_schema_healing (config : Config) (diagnosis : Diagnosis) :
    Config × Config :=
  match diagnosis.suggested_actions with
  | [] => (config, config)
  | action :: _ =>
    match action with
    | .schema_update from_col to_col =>
      let old_cols := (config.schema.getD default).required_columns.getD []
      let new_cols := old_cols.map fun c => if c = from_col then to_col else c
      let healed : Config :=
        { config with
          schema := some
            { config.schema.getD default with required_columns := some new_cols } }
      (healed, healed)
    | _ => (config, config)

/-- Function `diagnose_dq_issue`: the result pairs the returned diagnosis with the
state of the caller's config dict after the call (the function only reads
`config`).  The `dq_update_max_null` branch requires
`err.kind == "null_fraction" and err.column and err.observed is not None`
and computes `min(max(err.observed + 0.05, err.threshold or 0.0), 1.0)`. -/
def diagnose_dq_issue (err : DataQualityError) (config : Config) :
    Diagnosis × Config :=
  let base : Diagnosis :=
    { pipeline_name := config.pipeline_name.getD "unknown"
      root_cause := pyOrStr err.kind "dq_failure"
      missing_columns := none
      column := err.column
      observed := err.observed
      threshold := err.threshold
      suggested_actions := [] }
  let diag : Diagnosis :=
    if err.kind = some "null_fraction" ∧ pyTruthyStr err.column = true ∧
        err.observed.isSome = true then
      -- `err.threshold or 0.0` is 0 for both `None` and `0.0`
      let new_threshold := min (max (err.observed.getD 0 + 1/20) (err.threshold.getD 0)) 1
      { base with suggested_actions :=
          [.dq_update_max_null (err.column.getD "") new_threshold] }
    else { base with suggested_actions := [.no_safe_fix] }
  (diag, config)

/-- Function `apply_dq_healing`: the result pairs the returned config with the
state of the caller's config dict after the call; the source mutates
`config` in place (`config.setdefault("data_quality", {})
["max_null_fraction"] = float(new_thr)`) and returns that same object. -/
def apply_dq_healing (config : Config) (diagnosis : Diagnosis) :
    Config × Config :=
  match diagnosis.suggested_actions with
  | [] => (config, config)
  | action :: _ =>
    match action with
    | .dq_update_max_null _column new_threshold =>
      let healed : Config :=
        { config with
          data_quality := some
            { config.data_quality.getD default with
              max_null_fraction := some new_threshold } }
      (healed, healed)
    | _ => (config, config)

/-- The seven checks called by `run_validation`, in source order. -/
def validationChecks (df : DataFrame) (config : Config) (today : Int) :
    List (Option Failure) :=
  [check_row_count df (build_dq_config config),
   check_null_fraction df (build_dq_config config),
   check_schema df (build_dq_config config),
   check_uniqueness df (build_dq_config config),
   check_column_types df (build_dq_config config),
   check_allowed_values df (build_dq_config config),
   check_freshness df (build_dq_config config) today]

/-- The first `some` in a list of optional failures, in list order
(fail-fast semantics of sequentially raised exceptions). -/
def firstSome {α : Type} : List (Option α) → Option α
  | [] => none
  | o :: rest => o.orElse fun _ => firstSome rest

/-- An empty dataset with no columns. -/
def dfEmpty : DataFrame := { nrows := 0, cols := [] }

/-- A one-row dataset with a single `region` column. -/
def dfOneRow : DataFrame := { nrows := 1, cols := [("region", [Cell.str "EMEA"])] }

/-- A two-row dataset with no columns. -/
def dfTwoRows : DataFrame := { nrows := 2, cols := [] }

/-- A one-row dataset whose `txn_date` column holds day 0. -/
def dfStale : DataFrame := { nrows := 1, cols := [("txn_date", [Cell.date 0])] }

/-- Configuration requiring column `a` and at least one row. -/
def cfgMinRows1 : Config :=
  { pipeline_name := none
    schema := some { required_columns := some ["a"], column_types := none }
    data_quality := some
      { max_null_fraction := none, min_row_count := some 1, unique_keys := none }
    allowed_values := none
    freshness := none }

/-- Configuration requiring at least two rows. -/
def cfgMinRows2 : Config :=
  { pipeline_name := none
    schema := none
    data_quality := some
      { max_null_fraction := none, min_row_count := some 2, unique_keys := none }
    allowed_values := none
    freshness := none }

/-- Configuration requiring column `b` only. -/
def cfgRequiredB : Config :=
  { pipeline_name := none
    schema := some { required_columns := some ["b"], column_types := none }
    data_quality := none
    allowed_values := none
    freshness := none }

/-- Configuration with a freshness rule on `txn_date`, one day of allowed
delay. -/
def cfgFresh : Config :=
  { pipeline_name := none
    schema := none
    data_quality := none
    allowed_values := none
    freshness := some { date_column := some "txn_date", max_days_delay := some 1 } }

/-- Configuration whose schema requires `date_of_sale`. -/
def cfgHeal : Config :=
  { pipeline_name := none
    schema := some { required_columns := some ["date_of_sale"], column_types := none }
    data_quality := none
    allowed_values := none
    freshness := none }

/-- Configuration with `max_null_fraction = 0.05`. -/
def cfgDq : Config :=
  { pipeline_name := none
    schema := none
    data_quality := some
      { max_null_fraction := some (1/20), min_row_count := none, unique_keys := none }
    allowed_values := none
    freshness := none }

/-- A diagnosis whose first candidate action renames `date_of_sale` to
`txn_date`. -/
def diagRename : Diagnosis :=
  { pipeline_name := "daily_sales_processing"
    root_cause := "schema_drift"
    missing_columns := some ["date_of_sale"]
    column := none
    observed := none
    threshold := none
    suggested_actions := [.schema_update "date_of_sale" "txn_date"] }

/-- A diagnosis with an empty action list. -/
def diagEmptyActions : Diagnosis :=
  { pipeline_name := "daily_sales_processing"
    root_cause := "schema_drift"
    missing_columns := none
    column := none
    observed := none
    threshold := none
    suggested_actions := [] }

/-- A diagnosis whose only candidate action is `no_safe_fix`. -/
def diagNoSafeFix : Diagnosis :=
  { diagEmptyActions with suggested_actions := [.no_safe_fix] }

/-- A `null_fraction` failure with observed fraction 0.1 against
threshold 0.05. -/
def errNullFrac : DataQualityError :=
  { kind := some "null_fraction"
    column := some "sales_amount"
    observed := some (1/10)
    threshold := some (1/20) }

/-- A diagnosis whose only candidate action raises `max_null_fraction`
to 0.15. -/
def diagDqUpdate : Diagnosis :=
  { diagEmptyActions with
    suggested_actions := [.dq_update_max_null "sales_amount" (3/20)] }

/-- Helper: a `firstSome` result comes from the first entry of the list
that is `some`, all earlier entries being `none`. -/
theorem firstSome_eq_some {α : Type} :
    ∀ (l : List (Option α)) (f : α), firstSome l = some f →
      ∃ i, l.get? i = some (some f) ∧ ∀ j, j < i → l.get? j = some none
  | [], f, h => by simp [firstSome] at h
  | o :: rest, f, h => by
    cases o with
    | some g =>
      refine ⟨0, ?_, ?_⟩
      · simpa [firstSome, Option.orElse] using h
      · intro j hj; omega
    | none =>
      have h' : firstSome rest = some f := by
        simpa [firstSome, Option.orElse] using h
      obtain ⟨i, hi, hj⟩ := firstSome_eq_some rest f h'
      refine ⟨i + 1, by simpa using hi, ?_⟩
      intro j hjlt
      cases j with
      | zero => rfl
      | succ j' => simpa using hj j' (by omega)

/-- C1: `run_validation` runs the checks in the fixed source order —
row count, null fraction, schema, uniqueness, column types, allowed
values, freshness — and stops at the first violation: its result is the
first `some` of `validationChecks`, and any failure it reports is the one
produced by the first failing check, all earlier checks passing.  At most
one failure is reported per call, the result being a single `Option`. -/
theorem run_validation_fixed_order_fail_fast (df : DataFrame) (config : Config)
    (today : Int) :
    run_validation df config today = firstSome (validationChecks df config today) ∧
    ∀ f, run_validation df config today = some f →
      ∃ i, (validationChecks df config today).get? i = some (some f) ∧
        ∀ j, j < i → (validationChecks df config today).get? j = some none := by
  have he : run_validation df config today = firstSome (validationChecks df config today) := by
    simp only [run_validation, validationChecks, firstSome, check_freshness,
      Option.none_orElse]
    rfl
  exact ⟨he, fun f h => firstSome_eq_some _ f (he ▸ h)⟩

/-- C1 witness: on the empty dataset with `min_row_count = 1` the reported
failure is produced by the first check in the fixed order. -/
theorem run_validation_fixed_order_fail_fast_witness :
    ∃ i, (validationChecks dfEmpty cfgMinRows1 0).get? i =
        some (some (.dq ⟨some "row_count", none, some 0, some 1⟩)) ∧
      ∀ j, j < i → (validationChecks dfEmpty cfgMinRows1 0).get? j = some none :=
  (run_validation_fixed_order_fail_fast dfEmpty cfgMinRows1 0).2
    (.dq ⟨some "row_count", none, some 0, some 1⟩) (by decide)

/-- C9: with `min_row_count = N > 0`, a dataset of exactly `N - 1` rows
fails validation with kind `row_count` (observed `N - 1`, threshold `N`),
and a dataset of exactly `N` rows passes the row-count check: the
threshold is an inclusive bound. -/
theorem row_count_inclusive_threshold (df df' : DataFrame) (config : Config)
    (today : Int) (N : Int)
    (hN : (build_dq_config config).min_row_count = N) (hpos : 0 < N)
    (hfail : (df.nrows : Int) = N - 1) (hpass : (df'.nrows : Int) = N) :
    run_validation df config today =
      some (.dq ⟨some "row_count", none, some ((N - 1 : Int) : ℚ), some ((N : Int) : ℚ)⟩) ∧
    check_row_count df' (build_dq_config config) = none := by
  have hobs : (df.nrows : ℚ) = ((N - 1 : Int) : ℚ) := by
    rw [← hfail]; exact (Int.cast_natCast _).symm
  have h1 : check_row_count df (build_dq_config config) =
      some (.dq ⟨some "row_count", none, some ((N - 1 : Int) : ℚ),
        some ((N : Int) : ℚ)⟩) := by
    unfold check_row_count
    rw [hN, hfail, if_pos (by omega), hobs]
  constructor
  · simp only [run_validation]
    rw [h1]
    rfl
  · unfold check_row_count
    rw [hN, hpass, if_neg (by omega)]

/-- C9 witness: `min_row_count = 2`, one row fails with `row_count`
(observed 1, threshold 2), two rows pass the row-count check. -/
theorem row_count_inclusive_threshold_witness :
    run_validation dfOneRow cfgMinRows2 0 =
      some (.dq ⟨some "row_count", none, some ((2 - 1 : Int) : ℚ), some ((2 : Int) : ℚ)⟩) ∧
    check_row_count dfTwoRows (build_dq_config cfgMinRows2) = none :=
  row_count_inclusive_threshold dfOneRow dfTwoRows cfgMinRows2 0 2
    (by decide) (by decide) (by decide) (by decide)

/-- C10: the null-fraction check reads only the hardcoded column
`"sales_amount"` — any two datasets agreeing on that column get the same
result under every configuration — and is silently skipped whenever that
column is absent, whatever columns the configuration mentions. -/
theorem null_fraction_only_sales_amount (df df' : DataFrame) (cfg : DQConfig)
    (hsame : df.col? "sales_amount" = df'.col? "sales_amount") :
    check_null_fraction df cfg = check_null_fraction df' cfg ∧
    (df.col? "sales_amount" = none → check_null_fraction df cfg = none) := by
  constructor
  · unfold check_null_fraction
    rw [hsame]
  · intro h
    unfold check_null_fraction
    rw [h]

/-- C10 witness: two datasets without a `sales_amount` column give the
same (skipped) null-fraction result. -/
theorem null_fraction_only_sales_amount_witness :
    check_null_fraction dfOneRow (build_dq_config cfgDq) =
      check_null_fraction dfTwoRows (build_dq_config cfgDq) ∧
    check_null_fraction dfOneRow (build_dq_config cfgDq) = none := by
  have h := null_fraction_only_sales_amount dfOneRow dfTwoRows
    (build_dq_config cfgDq) (by decide)
  exact ⟨h.1, h.2 (by decide)⟩

/-- C2 counterexample: the empty dataset is missing required column `a`
(so the schema check would report drift), yet validation fails with kind
`row_count` — the row-count check runs first — and not with
`schema_drift`; the claim that `schema_drift` is reported whenever
required columns are missing, to the exclusion of every other kind, is
false. -/
theorem schema_drift_preempted_counterexample :
    check_schema dfEmpty (build_dq_config cfgMinRows1) = some (.schemaDrift ["a"]) ∧
    run_validation dfEmpty cfgMinRows1 0 =
      some (.dq ⟨some "row_count", none, some 0, some 1⟩) ∧
    run_validation dfEmpty cfgMinRows1 0 ≠ some (.schemaDrift ["a"]) := by
  refine ⟨by decide, by decide, by decide⟩

/-- C2 amended: for every dataset missing a non-empty subset of the
configured required columns **on which the row-count and null-fraction
checks pass**, validation fails with `schema_drift` carrying exactly the
missing columns in required-columns order, and no later check's failure
kind is reported. -/
theorem schema_drift_when_earlier_checks_pass (df : DataFrame) (config : Config)
    (today : Int)
    (hrow : check_row_count df (build_dq_config config) = none)
    (hnull : check_null_fraction df (build_dq_config config) = none)
    (hmiss : (build_dq_config config).required_columns.filter
      (fun c => (df.col? c).isNone) ≠ []) :
    run_validation df config today =
      some (.schemaDrift ((build_dq_config config).required_columns.filter
        fun c => (df.col? c).isNone)) := by
  have hempty : ((build_dq_config config).required_columns.filter
      fun c => (df.col? c).isNone).isEmpty = false := by
    cases h : (build_dq_config config).required_columns.filter
        fun c => (df.col? c).isNone with
    | nil => exact absurd h hmiss
    | cons a l => rfl
  have hs : check_schema df (build_dq_config config) =
      some (.schemaDrift ((build_dq_config config).required_columns.filter
        fun c => (df.col? c).isNone)) := by
    simp only [check_schema]
    rw [hempty]
    rfl
  simp only [run_validation]
  rw [hrow, hnull, hs]
  rfl

/-- C2 amended witness: a one-row dataset with only a `region` column,
required column `b`: the first two checks pass and validation reports
`schema_drift ["b"]`. -/
theorem schema_drift_when_earlier_checks_pass_witness :
    run_validation dfOneRow cfgRequiredB 0 =
      some (.schemaDrift ((build_dq_config cfgRequiredB).required_columns.filter
        fun c => (dfOneRow.col? c).isNone)) :=
  schema_drift_when_earlier_checks_pass dfOneRow cfgRequiredB 0
    (by decide) (by decide) (by decide)

/-- C3 (code bug): with a freshness rule of one day on `txn_date` and a
dataset whose latest `txn_date` is 10 days old, the `try` body of
`_check_freshness` raises the `freshness` failure, but the enclosing
`except Exception: pass` — meant, per its comment, only for parsing
issues — catches the `DataQualityError` itself, so the check reports
nothing and the whole validation succeeds. -/
theorem freshness_violation_never_propagates :
    checkFreshnessBody dfStale (build_dq_config cfgFresh) 10 =
      some (.dq ⟨some "freshness", some "txn_date", some 10, some 1⟩) ∧
    check_freshness dfStale (build_dq_config cfgFresh) 10 = none ∧
    run_validation dfStale cfgFresh 10 = none := by
  refine ⟨by decide, rfl, by decide⟩

/-- C4 counterexample: the caller's configuration is **not** unchanged
after healing — applying the `date_of_sale → txn_date` rename, and
applying a `dq_update_max_null` action, each leave the caller's config
dict (the second component, its post-call state) different from the value
passed in: the functions mutate in place rather than copy. -/
theorem healing_mutates_caller_counterexample :
    (apply_schema_healing cfgHeal diagRename).2 ≠ cfgHeal ∧
    (apply_dq_healing cfgDq diagDqUpdate).2 ≠ cfgDq := by
  refine ⟨by decide, ?_⟩
  intro h
  have h' : (3 / 20 : ℚ) = 1 / 20 := by
    have := congrArg
      (fun c : Config => ((c.data_quality.getD default).max_null_fraction).getD 0) h
    simpa [apply_dq_healing, diagDqUpdate, diagEmptyActions, cfgDq] using this
  norm_num at h'

/-- C4 amended: both healing functions operate directly on the caller's
configuration and return that same object — after the call the caller's
config equals the returned healed value — and the mutation touches only
the targeted field: schema healing leaves everything but
`schema.required_columns` unchanged, data-quality healing everything but
`data_quality.max_null_fraction`. -/
theorem healing_in_place_frame (config : Config) (diagnosis : Diagnosis) :
    (apply_schema_healing config diagnosis).2 = (apply_schema_healing config diagnosis).1 ∧
    (apply_dq_healing config diagnosis).2 = (apply_dq_healing config diagnosis).1 ∧
    (apply_schema_healing config diagnosis).1.pipeline_name = config.pipeline_name ∧
    (apply_schema_healing config diagnosis).1.data_quality = config.data_quality ∧
    (apply_schema_healing config diagnosis).1.allowed_values = config.allowed_values ∧
    (apply_schema_healing config diagnosis).1.freshness = config.freshness ∧
    ((apply_schema_healing config diagnosis).1.schema.getD default).column_types =
      (config.schema.getD default).column_types ∧
    (apply_dq_healing config diagnosis).1.pipeline_name = config.pipeline_name ∧
    (apply_dq_healing config diagnosis).1.schema = config.schema ∧
    (apply_dq_healing config diagnosis).1.allowed_values = config.allowed_values ∧
    (apply_dq_healing config diagnosis).1.freshness = config.freshness ∧
    ((apply_dq_healing config diagnosis).1.data_quality.getD default).min_row_count =
      (config.data_quality.getD default).min_row_count ∧
    ((apply_dq_healing config diagnosis).1.data_quality.getD default).unique_keys =
      (config.data_quality.getD default).unique_keys := by
  rcases hact : diagnosis.suggested_actions with _ | ⟨a, rest⟩
  · simp [apply_schema_healing, apply_dq_healing, hact]
  · cases a <;> simp [apply_schema_healing, apply_dq_healing, hact]

/-- C5: for a `null_fraction` failure with known column and observed
fraction and threshold in `[0, 1]`, the diagnosis proposes exactly one
`dq_update_max_null` action with new threshold
`min(max(observed + 0.05, threshold), 1.0)`; applying the healing sets
`max_null_fraction` to that value, which never undercuts the prior
threshold and always dominates the observed fraction. -/
theorem null_fraction_healing_monotone (err : DataQualityError) (config : Config)
    (c : String) (obs thr : ℚ)
    (hkind : err.kind = some "null_fraction")
    (hcol : err.column = some c) (hc : c ≠ "")
    (hobs : err.observed = some obs) (hobs0 : 0 ≤ obs) (hobs1 : obs ≤ 1)
    (hthr : err.threshold = some thr) (hthr0 : 0 ≤ thr) (hthr1 : thr ≤ 1)
    (hprior : (build_dq_config config).max_null_fraction = thr) :
    (diagnose_dq_issue err config).1.suggested_actions =
      [.dq_update_max_null c (min (max (obs + 1/20) thr) 1)] ∧
    (build_dq_config
        (apply_dq_healing config (diagnose_dq_issue err config).1).1).max_null_fraction =
      min (max (obs + 1/20) thr) 1 ∧
    (build_dq_config config).max_null_fraction ≤
      (build_dq_config
        (apply_dq_healing config (diagnose_dq_issue err config).1).1).max_null_fraction ∧
    obs ≤ (build_dq_config
        (apply_dq_healing config (diagnose_dq_issue err config).1).1).max_null_fraction := by
  have hdiag : (diagnose_dq_issue err config).1.suggested_actions =
      [.dq_update_max_null c (min (max (obs + 1/20) thr) 1)] := by
    simp [diagnose_dq_issue, hkind, hcol, hobs, hthr, pyTruthyStr, hc]
  have happ : (build_dq_config
      (apply_dq_healing config (diagnose_dq_issue err config).1).1).max_null_fraction =
      min (max (obs + 1/20) thr) 1 := by
    simp [apply_dq_healing, hdiag, build_dq_config]
  refine ⟨hdiag, happ, ?_, ?_⟩
  · rw [happ, hprior]
    exact le_min (le_max_right _ _) hthr1
  · rw [happ]
    exact le_min (le_trans (by linarith) (le_max_left _ _)) hobs1

/-- C5 witness: observed fraction 0.1 against threshold 0.05 yields new
threshold `min(max(0.15, 0.05), 1) = 0.15`, at least the prior threshold
and at least the observed fraction. -/
theorem null_fraction_healing_monotone_witness :
    (diagnose_dq_issue errNullFrac cfgDq).1.suggested_actions =
      [.dq_update_max_null "sales_amount" (min (max (1/10 + 1/20) (1/20)) 1)] ∧
    (build_dq_config
        (apply_dq_healing cfgDq (diagnose_dq_issue errNullFrac cfgDq).1).1).max_null_fraction =
      min (max (1/10 + 1/20) (1/20)) 1 ∧
    (build_dq_config cfgDq).max_null_fraction ≤
      (build_dq_config
        (apply_dq_healing cfgDq (diagnose_dq_issue errNullFrac cfgDq).1).1).max_null_fraction ∧
    (1/10 : ℚ) ≤ (build_dq_config
        (apply_dq_healing cfgDq (diagnose_dq_issue errNullFrac cfgDq).1).1).max_null_fraction :=
  null_fraction_healing_monotone errNullFrac cfgDq "sales_amount" (1/10) (1/20)
    rfl rfl (by decide) rfl (by norm_num) (by norm_num) rfl (by norm_num) (by norm_num) rfl

/-- Helper: the required-columns rename is idempotent on lists. -/
theorem rename_map_idem (f t : String) (l : List String) :
    ((l.map fun c => if c = f then t else c).map fun c => if c = f then t else c) =
      l.map fun c => if c = f then t else c := by
  induction l with
  | nil => rfl
  | cons c cs ih =>
    simp only [List.map_cons, ih]
    by_cases hc : c = f
    · by_cases ht : t = f <;> simp [hc, ht]
    · simp [hc]

/-- C6: schema-rename healing is idempotent — applying
`apply_schema_healing` twice with the same rename diagnosis yields the
configuration obtained by applying it once, since the renamed column is
no longer present to rename again. -/
theorem schema_healing_idempotent (config : Config) (diagnosis : Diagnosis)
    (f t : String) (rest : List CandidateAction)
    (hact : diagnosis.suggested_actions = .schema_update f t :: rest) :
    (apply_schema_healing (apply_schema_healing config diagnosis).1 diagnosis).1 =
      (apply_schema_healing config diagnosis).1 := by
  simp only [apply_schema_healing, hact]
  simp
  intro a ha hgf
  by_cases hc : a = f
  · simp [hc]
  · simp [hc] at hgf

/-- C6 witness: renaming `date_of_sale → txn_date` twice equals renaming
once on a config requiring `date_of_sale`. -/
theorem schema_healing_idempotent_witness :
    (apply_schema_healing (apply_schema_healing cfgHeal diagRename).1 diagRename).1 =
      (apply_schema_healing cfgHeal diagRename).1 :=
  schema_healing_idempotent cfgHeal diagRename "date_of_sale" "txn_date" [] rfl

/-- C7: neither diagnosis entry point mutates the rule configuration —
the caller's config dict after either call equals the value passed in,
the diagnosis being a pure derivation (plus a log append, not modelled). -/
theorem diagnosis_preserves_config (missing : List String) (err : DataQualityError)
    (config : Config) :
    (diagnose_schema_drift missing config).2 = config ∧
    (diagnose_dq_issue err config).2 = config :=
  ⟨rfl, rfl⟩

/-- C8: with an empty action list, or a first action whose type does not
match the healing function, both healing functions return the
configuration unchanged (and leave the caller's dict untouched), raising
no error. -/
theorem healing_noop_without_matching_action (config : Config) (diagnosis : Diagnosis) :
    (diagnosis.suggested_actions = [] →
      apply_schema_healing config diagnosis = (config, config) ∧
      apply_dq_healing config diagnosis = (config, config)) ∧
    (∀ a rest, diagnosis.suggested_actions = a :: rest →
      (a.typeName ≠ "schema_update" →
        apply_schema_healing config diagnosis = (config, config)) ∧
      (a.typeName ≠ "dq_update_max_null" →
        apply_dq_healing config diagnosis = (config, config))) := by
  constructor
  · intro h
    simp [apply_schema_healing, apply_dq_healing, h]
  · intro a rest h
    cases a <;>
      simp [apply_schema_healing, apply_dq_healing, h, CandidateAction.typeName]

/-- C8 witness: an empty action list and a `no_safe_fix` first action are
no-ops for both healing functions. -/
theorem healing_noop_without_matching_action_witness :
    apply_schema_healing cfgHeal diagEmptyActions = (cfgHeal, cfgHeal) ∧
    apply_schema_healing cfgHeal diagNoSafeFix = (cfgHeal, cfgHeal) ∧
    apply_dq_healing cfgHeal diagNoSafeFix = (cfgHeal, cfgHeal) :=
  ⟨((healing_noop_without_matching_action cfgHeal diagEmptyActions).1 rfl).1,
   ((healing_noop_without_matching_action cfgHeal diagNoSafeFix).2
     .no_safe_fix [] rfl).1 (by decide),
   ((healing_noop_without_matching_action cfgHeal diagNoSafeFix).2
     .no_safe_fix [] rfl).2 (by decide)⟩
